import Mathlib

/-!
Verification of the Industry Management System backend (FastAPI + DynamoDB).

Shallow embedding conventions:
* A DynamoDB/Python scalar value is a `PyVal`.  DynamoDB numbers come back
  from boto3 as `decimal.Decimal`; these are modelled by `Dec`, an exact
  decimal number `mantissa / 10 ^ exp`.  Python floats are modelled by the
  exact rational value they denote in the API payload (`pfloat`).
* A stored item (a flat DynamoDB record) is an association list
  `Item = List (String × PyVal)`; `item.get(k)` is `itemGet`, and
  `item[k]` (raising `KeyError` when absent) is modelled by functions
  returning `Option`, with `none` for the raising case.
* A table is a list of `(numeric key, item)` pairs; `get_item`, `put_item`,
  `delete_item` and `scan` are `getItem`, `putItem`, `delItem`, `scanItems`.
* Route handlers return a `RouteOut`: the HTTP response, the table after the
  call, and the exact list of storage operations issued, in order.
* Fallible Python code (raising paths) is modelled with `Option`/`Except`.
-/

/-- An exact decimal number `mantissa / 10 ^ exp`, the model of Python's
`decimal.Decimal` as stored in DynamoDB. -/
structure Dec where
  mantissa : Int
  exp : Nat
deriving DecidableEq, Repr

/-- The rational value denoted by a decimal. -/
def Dec.toRat (d : Dec) : ℚ := Rat.divInt d.mantissa ((10 : Int) ^ d.exp)

theorem Dec.toRat_eq_div (d : Dec) :
    d.toRat = (d.mantissa : ℚ) / ((10 : ℚ) ^ d.exp) := by
  rw [Dec.toRat, Rat.divInt_eq_div]
  push_cast
  ring

/-- `obj % 1 == 0` on a `Decimal`: the value is a whole number. -/
def Dec.isWhole (d : Dec) : Bool := d.mantissa % ((10 : Int) ^ d.exp) == 0

/-- `int(obj)` on a `Decimal`: truncation toward zero. -/
def Dec.toInt (d : Dec) : Int := d.mantissa.tdiv ((10 : Int) ^ d.exp)

/-- A Python/DynamoDB scalar value. -/
inductive PyVal where
  | pnone
  | pint (n : Int)
  | pfloat (q : ℚ)
  | pstr (s : String)
  | pbool (b : Bool)
  | pdec (d : Dec)
deriving DecidableEq, Repr

/-- Truncation of a rational toward zero, as Python's `int(float)`. -/
def ratTrunc (q : ℚ) : Int := if 0 ≤ q then ⌊q⌋ else ⌈q⌉

/-- Python truthiness (`if v:`) of a scalar. -/
def PyVal.truthy : PyVal → Bool
  | .pnone => false
  | .pint n => n != 0
  | .pfloat q => q != 0
  | .pstr s => s != ""
  | .pbool b => b
  | .pdec d => d.toRat != 0

/-- Python `int(v)` on a scalar; `none` models the raising cases
(`TypeError` on `None`, `ValueError` on a non-numeric string). -/
def PyVal.toIntCoerce : PyVal → Option Int
  | .pnone => none
  | .pint n => some n
  | .pfloat q => some (ratTrunc q)
  | .pstr s => s.toInt?
  | .pbool b => some (if b then 1 else 0)
  | .pdec d => some d.toInt

/-- The numeric value of a scalar, when it has one (Python's numeric tower:
int, float, bool and Decimal all compare numerically). -/
def PyVal.toRatNum : PyVal → Option ℚ
  | .pint n => some (n : ℚ)
  | .pfloat q => some q
  | .pbool b => some (if b then 1 else 0)
  | .pdec d => some d.toRat
  | _ => none

/-- Python `==` on scalars: numeric values compare by value across types,
strings compare as strings, `None` is only equal to itself. -/
def pyEq (a b : PyVal) : Bool :=
  match a.toRatNum, b.toRatNum with
  | some x, some y => x == y
  | _, _ =>
    match a, b with
    | .pstr s, .pstr t => s == t
    | .pnone, .pnone => true
    | _, _ => false

/-- `str(...)` of a `Decimal` whose value is `m / 10^e`, in plain decimal
notation (the form produced for all decimals stored by this backend). -/
def Dec.toDisplay (d : Dec) : String :=
  if d.exp = 0 then toString d.mantissa
  else
    let s := toString d.mantissa.natAbs
    let s := if s.length ≤ d.exp then String.mk (List.replicate (d.exp + 1 - s.length) '0') ++ s else s
    let cut := s.length - d.exp
    (if d.mantissa < 0 then "-" else "") ++ s.take cut ++ "." ++ s.drop cut

/-- Python `str(v)` on a scalar.  The `pfloat` branch is only a placeholder
(`str` of a binary float is representation-dependent); no stored item ever
holds a `pfloat`, so no theorem below depends on that branch. -/
def pyStr : PyVal → String
  | .pnone => "None"
  | .pint n => toString n
  | .pfloat q => toString q
  | .pstr s => s
  | .pbool b => if b then "True" else "False"
  | .pdec d => d.toDisplay

/-- A stored DynamoDB item: a flat record of attribute name to value. -/
abbrev Item : Type := List (String × PyVal)

/-- `item.get(k)` without default: `none` when the attribute is absent. -/
def itemGet (it : Item) (k : String) : Option PyVal :=
  (it.find? (fun p => p.1 == k)).map (·.2)

/-- `item.get(k)` as Python sees it: absent attributes read as `None`. -/
def itemGetD (it : Item) (k : String) : PyVal :=
  (itemGet it k).getD .pnone

/-- A DynamoDB table keyed by a numeric id. -/
abbrev Table : Type := List (Int × Item)

/-- `table.get_item(Key={...: k})`. -/
def getItem (db : Table) (k : Int) : Option Item :=
  (db.find? (fun p => p.1 == k)).map (·.2)

/-- `table.put_item(Item=item)` where `item`'s key attribute is `k`:
replaces the record with key `k`, or appends a fresh one. -/
def putItem (db : Table) (k : Int) (it : Item) : Table :=
  if (db.find? (fun p => p.1 == k)).isSome then
    db.map (fun p => if p.1 == k then (k, it) else p)
  else
    db ++ [(k, it)]

/-- `table.delete_item(Key={...: k})`. -/
def delItem (db : Table) (k : Int) : Table :=
  db.filter (fun p => p.1 != k)

/-- `table.scan().get("Items", [])`. -/
def scanItems (db : Table) : List Item := db.map (·.2)

/-- One storage operation issued by a handler. -/
inductive DbOp where
  | scan
  | get (k : Int)
  | put (k : Int) (it : Item)
  | del (k : Int)
deriving DecidableEq, Repr

/-- An HTTP response: a JSON object, a JSON array, or an error
`{"detail": ...}` with a status code. -/
inductive Resp where
  | okItem (it : Item)
  | okList (l : List Item)
  | err (status : Nat) (detail : String)
deriving DecidableEq, Repr

/-- Result of one route handler call: response, table state after the call,
and the storage operations issued, in order. -/
structure RouteOut where
  resp : Resp
  db : Table
  ops : List DbOp
deriving DecidableEq, Repr

/-! ## utils/helpers.py : id allocators -/

/-- The loop body of `get_next_*_id`: collect `int(key)` for every item
whose key attribute is present and truthy.  `none` models the raising
branch of `int(...)` (never reached on numeric keys). -/
def collectIds (keyName : String) : List Item → Option (List Int)
  | [] => some []
  | it :: rest =>
    match collectIds keyName rest with
    | none => none
    | some ids =>
      match itemGet it keyName with
      | none => some ids
      | some v =>
        if v.truthy then
          match v.toIntCoerce with
          | none => none
          | some n => some (n :: ids)
        else some ids

/-- `max(ids)` on a nonempty Python list. -/
def listMax : List Int → Int
  | [] => 0
  | x :: xs => xs.foldl max x

/-- `get_next_agent_id` / `get_next_party_id` / `get_next_product_id`
(utils/helpers.py lines 113-173; the three are identical up to table and
key attribute name): scan all items, return 1 on an empty table, otherwise
collect the truthy keys coerced to `int` and return their max plus 1,
or 1 if no key was collected.  `Except.error` models the raising path. -/
def nextIdScan (keyName : String) (items : List Item) : Except String Int :=
  if items.isEmpty then .ok 1
  else
    match collectIds keyName items with
    | none => .error "Error getting next ID"
    | some ids => if ids.isEmpty then .ok 1 else .ok (listMax ids + 1)

def get_next_agent_id (items : List Item) : Except String Int :=
  nextIdScan "AgentId" items

def get_next_party_id (items : List Item) : Except String Int :=
  nextIdScan "PartyId" items

def get_next_product_id (items : List Item) : Except String Int :=
  nextIdScan "ProductId" items

/-! ## Spec-side characterization of the allocator -/

/-- The integer-coerced valid (present and truthy) keys of a list of items,
as a direct `filterMap`; used to state the allocator claim. -/
def validKeyInts (keyName : String) (items : List Item) : List Int :=
  items.filterMap (fun it =>
    match itemGet it keyName with
    | some v => if v.truthy then v.toIntCoerce else none
    | none => none)

/-- Every present, truthy key of every item coerces to an integer
(the allocator's `int(...)` never raises). -/
def KeysCoercible (keyName : String) (items : List Item) : Prop :=
  ∀ it ∈ items, ∀ v ∈ itemGet it keyName, v.truthy = true →
    (v.toIntCoerce).isSome = true

instance (keyName : String) (items : List Item) :
    Decidable (KeysCoercible keyName items) := by
  unfold KeysCoercible; infer_instance

theorem collectIds_eq_validKeyInts (keyName : String) (items : List Item)
    (h : KeysCoercible keyName items) :
    collectIds keyName items = some (validKeyInts keyName items) := by
  induction items with
  | nil => rfl
  | cons it rest ih =>
    have hrest : KeysCoercible keyName rest := by
      intro x hx v hv ht
      exact h x (List.mem_cons_of_mem _ hx) v hv ht
    have ih' := ih hrest
    simp only [collectIds, ih', validKeyInts, List.filterMap_cons]
    cases hv : itemGet it keyName with
    | none => simp [validKeyInts]
    | some v =>
      by_cases ht : v.truthy = true
      · have hc := h it (List.mem_cons_self _ _) v (by simp [hv]) ht
        cases hcv : v.toIntCoerce with
        | none => rw [hcv] at hc; simp at hc
        | some n => simp [ht, hcv, validKeyInts]
      · simp only [Bool.not_eq_true] at ht
        simp [ht, validKeyInts]

theorem listMax_mem : ∀ (xs : List Int) (x : Int), listMax (x :: xs) ∈ x :: xs := by
  intro xs
  induction xs with
  | nil => intro x; simp [listMax]
  | cons y ys ih =>
    intro x
    have h := ih (max x y)
    simp only [listMax, List.foldl_cons] at h ⊢
    rcases List.mem_cons.mp h with h | h
    · rcases max_choice x y with hc | hc <;> rw [hc] at h ⊢ <;> simp [h]
    · simp [h]

theorem listMax_isUB : ∀ (xs : List Int) (x z : Int),
    z ∈ x :: xs → z ≤ listMax (x :: xs) := by
  intro xs
  induction xs with
  | nil =>
    intro x z hz
    simp only [List.mem_singleton] at hz
    simp [listMax, hz]
  | cons y ys ih =>
    intro x z hz
    have h := ih (max x y)
    simp only [listMax, List.foldl_cons] at h ⊢
    rcases List.mem_cons.mp hz with hz | hz
    · rw [hz]
      exact le_trans (le_max_left x y) (h _ (List.mem_cons_self _ _))
    · rcases List.mem_cons.mp hz with hz | hz
      · rw [hz]
        exact le_trans (le_max_right x y) (h _ (List.mem_cons_self _ _))
      · exact h _ (List.mem_cons_of_mem _ hz)

/-- The claim's statement of the allocator contract, for one allocator:
if the collection has no valid key, the result is 1 (covering the empty
collection); if `m` is the maximum of the integer-coerced valid keys, the
result is `m + 1`. -/
def AllocatorSpec (f : List Item → Except String Int) (keyName : String)
    (items : List Item) : Prop :=
  (validKeyInts keyName items = [] → f items = .ok 1) ∧
  (∀ m, m ∈ validKeyInts keyName items →
    (∀ x ∈ validKeyInts keyName items, x ≤ m) → f items = .ok (m + 1))

theorem nextIdScan_meets_spec (keyName : String) (items : List Item)
    (h : KeysCoercible keyName items) :
    AllocatorSpec (nextIdScan keyName) keyName items := by
  constructor
  · intro hempty
    unfold nextIdScan
    rcases items with _ | ⟨it, rest⟩
    · rfl
    · rw [collectIds_eq_validKeyInts _ _ h, hempty]
      rfl
  · intro m hmem hub
    unfold nextIdScan
    have hne : items ≠ [] := by
      intro hnil
      rw [hnil] at hmem
      simp [validKeyInts] at hmem
    rw [if_neg (by simpa using hne), collectIds_eq_validKeyInts _ _ h]
    rcases hids : validKeyInts keyName items with _ | ⟨x, xs⟩
    · rw [hids] at hmem; simp at hmem
    · rw [hids] at hmem hub
      have h1 := listMax_mem xs x
      have h2 := listMax_isUB xs x
      have : listMax (x :: xs) = m :=
        le_antisymm (hub _ h1) (h2 m hmem)
      simp [this]

/-- Claim C1: for every entity collection (agents, parties, products), the
sequential id allocator returns 1 when the collection is empty or contains
no valid key, and otherwise returns the maximum of the integer-coerced key
fields plus 1 (Decimal-encoded keys are truncated to `int`). -/
theorem next_id_allocator_correct (items : List Item)
    (hA : KeysCoercible "AgentId" items)
    (hP : KeysCoercible "PartyId" items)
    (hQ : KeysCoercible "ProductId" items) :
    AllocatorSpec get_next_agent_id "AgentId" items ∧
    AllocatorSpec get_next_party_id "PartyId" items ∧
    AllocatorSpec get_next_product_id "ProductId" items :=
  ⟨nextIdScan_meets_spec _ _ hA, nextIdScan_meets_spec _ _ hP,
    nextIdScan_meets_spec _ _ hQ⟩

/-- Witness for C1: a concrete collection with one Decimal-encoded key `7`,
one plain key `3` and one item without a key field allocates `8`; the empty
collection allocates `1`. -/
theorem next_id_allocator_correct_witness :
    get_next_agent_id
      [[("AgentId", .pdec ⟨70, 1⟩)], [("AgentId", .pint 3)], [("Name", .pstr "x")]] =
      .ok 8 ∧
    get_next_agent_id [] = .ok 1 := by
  have h := next_id_allocator_correct
    [[("AgentId", .pdec ⟨70, 1⟩)], [("AgentId", .pint 3)], [("Name", .pstr "x")]]
    (by decide) (by decide) (by decide)
  have h2 := next_id_allocator_correct ([] : List Item)
    (by decide) (by decide) (by decide)
  exact ⟨h.1.2 7 (by decide) (by decide), h2.1.1 (by decide)⟩

/-! ## utils/dynamodb_utils.py -/

/-- `decimal_to_python` on a scalar (utils/dynamodb_utils.py lines 5-20):
a `Decimal` becomes an `int` when it is a whole number (`obj % 1 == 0`)
and a `float` otherwise; other scalars pass through. -/
def decimal_to_python : PyVal → PyVal
  | .pdec d => if d.isWhole then .pint d.toInt else .pfloat d.toRat
  | v => v

/-- `decimal_to_python` applied to a flat item (its `dict` branch). -/
def decimal_to_python_item (it : Item) : Item :=
  it.map (fun p => (p.1, decimal_to_python p.2))

/-! ## utils/helpers.py : encoding and per-entity normalizers -/

/-- `ddb_decimal(n) = Decimal(str(n))` (utils/helpers.py lines 9-11): the
API float `n` is modelled by the exact decimal value `d` it displays as,
and the constructed `Decimal` holds exactly that value. -/
def ddb_decimal (d : Dec) : PyVal := .pdec d

/-- `normalize_ddb_item` (utils/helpers.py lines 14-24): converts every
`Decimal` value to a `float`, unconditionally. -/
def normalize_ddb_item (it : Item) : Item :=
  it.map (fun p =>
    (p.1, match p.2 with
          | .pdec d => .pfloat d.toRat
          | v => v))

/-- The inner `convert` of `normalize_agent_item`: a `Decimal` becomes its
`str`, everything else passes through. -/
def agentConvert : PyVal → PyVal
  | .pdec d => .pstr d.toDisplay
  | v => v

/-- `normalize_agent_item` (utils/helpers.py lines 27-43).  `none` models
the `KeyError` raised when `item["AgentId"]` is absent. -/
def normalize_agent_item (it : Item) : Option Item :=
  match itemGet it "AgentId" with
  | none => none
  | some pid =>
    some [("agentId", match pid with | .pdec d => .pint d.toInt | v => v),
          ("name", agentConvert (itemGetD it "Name")),
          ("mobile", agentConvert (itemGetD it "Mobile")),
          ("aadhar_Details", agentConvert (itemGetD it "Aadhar_Details")),
          ("address", agentConvert (itemGetD it "Address"))]

/-- The inner `convert` of `normalize_party_item`: a `Decimal` is first
truncated to `int`; then every non-`None` value goes through `str`. -/
def partyConvert : PyVal → PyVal
  | .pnone => .pnone
  | .pdec d => .pstr (toString d.toInt)
  | v => .pstr (pyStr v)

/-- The `agentId` field of the party normalizer:
`int(item["AgentId"])` when the attribute is truthy and a `Decimal`,
otherwise `item.get("AgentId")` unchanged. -/
def partyAgentIdField (it : Item) : PyVal :=
  match itemGetD it "AgentId" with
  | .pdec d => if (PyVal.pdec d).truthy then .pint d.toInt else .pdec d
  | v => v

/-- `normalize_party_item` (utils/helpers.py lines 46-70); `none` models
the `KeyError` raised when `item["PartyId"]` is absent. -/
def normalize_party_item (it : Item) : Option Item :=
  match itemGet it "PartyId" with
  | none => none
  | some pid =>
    some [("partyId", match pid with | .pdec d => .pint d.toInt | v => v),
          ("partyName", itemGetD it "PartyName"),
          ("aliasOrCompanyName", itemGetD it "AliasOrCompanyName"),
          ("address", itemGetD it "Address"),
          ("city", itemGetD it "City"),
          ("state", itemGetD it "State"),
          ("pincode", partyConvert (itemGetD it "Pincode")),
          ("agentId", partyAgentIdField it),
          ("contact_Person1", itemGetD it "Contact_Person1"),
          ("contact_Person2", itemGetD it "Contact_Person2"),
          ("email", itemGetD it "Email"),
          ("mobile1", partyConvert (itemGetD it "Mobile1")),
          ("mobile2", partyConvert (itemGetD it "Mobile2")),
          ("orderId", partyConvert (itemGetD it "OrderId"))]

/-- The inner `convert_decimal` of `normalize_product_item`: a `Decimal`
becomes a `float`, everything else passes through. -/
def convert_decimal : PyVal → PyVal
  | .pdec d => .pfloat d.toRat
  | v => v

/-- `normalize_product_item` (utils/helpers.py lines 73-103); `none` models
the `KeyError` raised when `item["ProductId"]` is absent. -/
def normalize_product_item (it : Item) : Option Item :=
  match itemGet it "ProductId" with
  | none => none
  | some pid =>
    some [("productId", match pid with | .pdec d => .pint d.toInt | v => v),
          ("productType", itemGetD it "ProductType"),
          ("productSize", convert_decimal (itemGetD it "ProductSize")),
          ("bagMaterial", itemGetD it "BagMaterial"),
          ("quantity", convert_decimal (itemGetD it "Quantity")),
          ("sheetGSM", convert_decimal (itemGetD it "SheetGSM")),
          ("sheetColor", itemGetD it "SheetColor"),
          ("borderGSM", convert_decimal (itemGetD it "BorderGSM")),
          ("borderColor", itemGetD it "BorderColor"),
          ("handleType", itemGetD it "HandleType"),
          ("handleColor", itemGetD it "HandleColor"),
          ("handleGSM", convert_decimal (itemGetD it "HandleGSM")),
          ("printingType", itemGetD it "PrintingType"),
          ("printColor", itemGetD it "PrintColor"),
          ("color", itemGetD it "Color"),
          ("design", (itemGet it "Design").getD (.pbool false)),
          ("plateBlockNumber", convert_decimal (itemGetD it "PlateBlockNumber")),
          ("plateAvailable", (itemGet it "PlateAvailable").getD (.pbool false)),
          ("rate", convert_decimal (itemGetD it "Rate"))]

/-! ## Claim C2 : decimal-to-int collapse -/

/-- The value is a Python `int` (not a `float`). -/
def PyVal.isInt : PyVal → Bool
  | .pint _ => true
  | _ => false

/-- Claim C2 counterexample: the stored decimal `5.0` (mantissa 50,
exponent 1: the encoding of the API float `5.0`) has zero fractional part,
yet the accounts decode path `normalize_ddb_item` turns it into the float
`5.0`, not an int — so decoding a whole decimal does NOT yield an integer
on every entity's decode path. -/
theorem whole_decimal_decodes_to_float_on_accounts_path :
    normalize_ddb_item [("amount", ddb_decimal ⟨50, 1⟩)] =
      [("amount", .pfloat 5)] ∧
    (PyVal.pfloat 5).isInt = false ∧
    itemGet (normalize_ddb_item [("amount", ddb_decimal ⟨50, 1⟩)]) "amount"
      ≠ some (.pint 5) := by
  refine ⟨by decide, by decide, by decide⟩

theorem Dec.toInt_cast_eq_toRat (d : Dec) (h : d.isWhole = true) :
    ((d.toInt : Int) : ℚ) = d.toRat := by
  have hd : ((10 : Int) ^ d.exp) ∣ d.mantissa := by
    simp only [Dec.isWhole, beq_iff_eq] at h
    exact Int.dvd_of_emod_eq_zero h
  obtain ⟨c, hc⟩ := hd
  have hne : ((10 : Int) ^ d.exp) ≠ 0 := by positivity
  rw [Dec.toRat_eq_div, Dec.toInt, hc, Int.mul_tdiv_cancel_left _ hne]
  have hne' : ((10 : ℚ) ^ d.exp) ≠ 0 := by positivity
  push_cast
  field_simp

/-- Claim C2 (amended): the library-level decode `decimal_to_python` does
check whether a decimal is a whole number and returns an `int` of the same
numeric value in that case (so `decode(encode(5.0))` is the int `5` on the
orders decode path); the accounts and products decode paths convert every
decimal to a float instead. -/
theorem decimal_to_python_int_collapse (d : Dec) (h : d.isWhole = true) :
    ∃ n : Int, decimal_to_python (.pdec d) = .pint n ∧ (n : ℚ) = d.toRat :=
  ⟨d.toInt, by simp [decimal_to_python, h], Dec.toInt_cast_eq_toRat d h⟩

/-- Witness for the amended C2 at the stored encoding of `5.0`. -/
theorem decimal_to_python_int_collapse_witness :
    Dec.isWhole ⟨50, 1⟩ = true ∧
    ∃ n : Int, decimal_to_python (.pdec ⟨50, 1⟩) = .pint n ∧
      (n : ℚ) = Dec.toRat ⟨50, 1⟩ :=
  ⟨by decide, decimal_to_python_int_collapse ⟨50, 1⟩ (by decide)⟩

/-! ## schemas/agents.py and schemas/party.py : mobile validators -/

/-- `''.join(c for c in v if c.isdigit())` (ASCII digits). -/
def digitString (v : String) : String :=
  String.mk (v.toList.filter Char.isDigit)

/-- `CreateAgent.validate_mobile` = `UpdateAgent.validate_mobile`
(schemas/agents.py lines 43-59): strip non-digit characters, require
exactly 10 digits.  There is no first-digit check. -/
def validate_mobile (v : String) : Except String String :=
  if v = "" then .error "Mobile number is required"
  else
    let cleaned := digitString v
    if cleaned.length ≠ 10 then .error "Mobile number must be exactly 10 digits"
    else if !(decide (cleaned.length > 0) && cleaned.toList.all Char.isDigit) then
      .error "Mobile number must contain only digits"
    else .ok cleaned

/-- `CreateParty.validate_mobile1` = `UpdateParty.validate_mobile1`
(schemas/party.py lines 108-128): strip non-digit characters, require
exactly 10 digits, and reject a first digit of 0 or 1. -/
def validate_mobile1 (v : String) : Except String String :=
  if v = "" then .error "Mobile 1 is required"
  else
    let cleaned := digitString v
    if cleaned.length ≠ 10 then .error "Mobile 1 must be exactly 10 digits"
    else if !(decide (cleaned.length > 0) && cleaned.toList.all Char.isDigit) then
      .error "Mobile 1 must contain only digits"
    else if cleaned.front == '0' || cleaned.front == '1' then
      .error "Mobile 1 cannot start with 0 or 1"
    else .ok cleaned

/-- `CreateParty.validate_mobile2` = `UpdateParty.validate_mobile2`
(schemas/party.py lines 130-153): optional; `None` and `""` pass through,
whitespace-only becomes `None`, otherwise as `validate_mobile1`. -/
def validate_mobile2 : Option String → Except String (Option String)
  | none => .ok none
  | some v =>
    if v = "" then .ok (some v)
    else if v.trim = "" then .ok none
    else
      let cleaned := digitString v
      if cleaned.length ≠ 10 then .error "Mobile 2 must be exactly 10 digits"
      else if !(decide (cleaned.length > 0) && cleaned.toList.all Char.isDigit) then
        .error "Mobile 2 must contain only digits"
      else if cleaned.front == '0' || cleaned.front == '1' then
        .error "Mobile 2 cannot start with 0 or 1"
      else .ok (some cleaned)

/-! ## Claim C3 : mobile validation -/

theorem digitString_all_digits (v : String) :
    ∀ x ∈ (digitString v).data, x.isDigit = true := by
  intro x hx
  exact (List.mem_filter.mp hx).2

/-- Claim C3 counterexample: the Agent mobile validator accepts the
10-digit number "0123456789" whose first digit is 0, while the Party
mobile validator rejects it — so it is false that every mobile-number
validator rejects a 10-digit number starting with 0 or 1. -/
theorem agent_mobile_accepts_leading_zero :
    validate_mobile "0123456789" = .ok "0123456789" ∧
    validate_mobile1 "0123456789" =
      .error "Mobile 1 cannot start with 0 or 1" := by
  refine ⟨by rfl, by rfl⟩

/-- Claim C3 (amended): each mobile validator strips non-digit characters
and requires exactly 10 digits to remain; the Party validators (mobile1,
mobile2) additionally reject a first digit of 0 or 1, while the Agent
mobile validator performs no first-digit check.  Acceptance returns the
cleaned digit string. -/
theorem mobile_validators_amended (v : String) :
    (validate_mobile v = .ok (digitString v) ↔
      v ≠ "" ∧ (digitString v).length = 10) ∧
    (validate_mobile1 v = .ok (digitString v) ↔
      v ≠ "" ∧ (digitString v).length = 10 ∧
        (digitString v).front ≠ '0' ∧ (digitString v).front ≠ '1') ∧
    (validate_mobile2 (some v) = .ok (some (digitString v)) ↔
      v = "" ∨ (v.trim ≠ "" ∧ (digitString v).length = 10 ∧
        (digitString v).front ≠ '0' ∧ (digitString v).front ≠ '1')) := by
  have hall := digitString_all_digits v
  have hnex : ¬ ∃ x ∈ (digitString v).data, x.isDigit = false := by
    rintro ⟨x, hx, hfalse⟩
    rw [hall x hx] at hfalse
    exact Bool.noConfusion hfalse
  refine ⟨?_, ?_, ?_⟩
  · unfold validate_mobile
    by_cases hv : v = ""
    · simp [hv]
    · by_cases hl : (digitString v).length = 10
      · simp [hv, hl, hnex]
      · simp [hv, hl]
  · unfold validate_mobile1
    by_cases hv : v = ""
    · simp [hv]
    · by_cases hl : (digitString v).length = 10
      · by_cases h0 : (digitString v).front = '0'
        · simp [hv, hl, hnex, h0]
        · by_cases h1 : (digitString v).front = '1'
          · simp [hv, hl, hnex, h0, h1]
          · simp [hv, hl, hnex, h0, h1]
      · simp [hv, hl]
  · unfold validate_mobile2
    by_cases hv : v = ""
    · simp [hv, digitString]
    · by_cases ht : v.trim = ""
      · simp [hv, ht]
      · by_cases hl : (digitString v).length = 10
        · by_cases h0 : (digitString v).front = '0'
          · simp [hv, ht, hl, hnex, h0]
          · by_cases h1 : (digitString v).front = '1'
            · simp [hv, ht, hl, hnex, h0, h1]
            · simp [hv, ht, hl, hnex, h0, h1]
        · simp [hv, ht, hl]

/-! ## schemas/products.py : rate validator (Claim C9) -/

/-- The Python float argument of `validate_rate`, modelled by its exact
rational value together with the string `str(v)` prints for it (CPython's
shortest round-trip repr). -/
structure PyFloat where
  val : ℚ
  pyRepr : String
deriving DecidableEq, Repr

/-- `str(v).split('.')[-1]`: the text after the last '.' of `s`, or all of
`s` when it contains no '.'. -/
def lastDotSegment (s : String) : String :=
  String.mk (s.data.foldl (fun cur c => if c = '.' then [] else cur ++ [c]) [])

/-- `CreateProduct.validate_rate` = `UpdateProduct.validate_rate`
(schemas/products.py lines 294-308 and 539-552): reject a non-positive
rate, reject a rate above 1,000,000, and reject when the text after the
last '.' of `str(v)` is longer than 2 characters and `str(v)` contains
a '.'. -/
def validate_rate (v : PyFloat) : Except String ℚ :=
  if v.val ≤ 0 then .error "Rate must be greater than 0"
  else if v.val > 1000000 then .error "Rate seems too large (max 1,000,000)"
  else if decide ((lastDotSegment v.pyRepr).length > 2) && v.pyRepr.data.contains '.' then
    .error "Rate can have maximum 2 decimal places"
  else .ok v.val

/-- `q` has at most `n` decimal digits: its reduced denominator divides
`10 ^ n`. -/
def hasAtMostDecimals (q : ℚ) (n : Nat) : Prop := q.den ∣ 10 ^ n

instance (q : ℚ) (n : Nat) : Decidable (hasAtMostDecimals q n) := by
  unfold hasAtMostDecimals; infer_instance

/-- Claim C9 (code bug): `validate_rate` accepts the rate `0.00001`,
although it has five decimal digits and the validator's own comment and
error message say rates with more than two decimal places are rejected:
CPython prints `str(1e-05)` as "1e-05", which contains no '.', so the
decimal-place check is skipped entirely. -/
theorem validate_rate_accepts_five_decimals :
    validate_rate ⟨1 / 100000, "1e-05"⟩ = .ok (1 / 100000) ∧
    ¬ hasAtMostDecimals (1 / 100000) 2 ∧
    (0 : ℚ) < 1 / 100000 ∧ (1 : ℚ) / 100000 ≤ 1000000 := by
  have hq : (1 / 100000 : ℚ) = Rat.divInt 1 100000 := by
    rw [Rat.divInt_eq_div]
    norm_num
  refine ⟨?_, ?_, by norm_num, by norm_num⟩
  · unfold validate_rate
    rw [if_neg (by norm_num), if_neg (by norm_num), if_neg (by decide)]
  · unfold hasAtMostDecimals
    rw [hq]
    decide

/-! ## Validated payloads and storage item shapes -/

/-- A validated `CreateAgent` / `UpdateAgent` payload (schemas/agents.py;
the two models declare identical fields). -/
structure AgentPayload where
  name : String
  mobile : String
  aadhar_Details : String
  address : String
deriving DecidableEq, Repr

/-- The storage item built by the agent create/update handlers
(routes/agents.py lines 84-90 and 123-129). -/
def agentItemOf (agent_id : Int) (p : AgentPayload) : Item :=
  [("AgentId", .pint agent_id),
   ("Name", .pstr p.name),
   ("Mobile", .pstr p.mobile),
   ("Aadhar_Details", .pstr p.aadhar_Details),
   ("Address", .pstr p.address)]

/-- Encoding of an optional string field (`None` stays `None`). -/
def optStr : Option String → PyVal
  | none => .pnone
  | some s => .pstr s

/-- Encoding of an optional int field (`None` stays `None`). -/
def optInt : Option Int → PyVal
  | none => .pnone
  | some n => .pint n

/-- A validated `CreateParty` / `UpdateParty` payload (schemas/party.py;
the two models declare identical fields). -/
structure PartyPayload where
  partyName : String
  aliasOrCompanyName : String
  contact_Person1 : String
  contact_Person2 : Option String
  mobile1 : String
  mobile2 : Option String
  email : Option String
  address : Option String
  city : Option String
  state : Option String
  pincode : Option String
  agentId : Option Int
  orderId : Option String
deriving DecidableEq, Repr

/-- The storage item built by the party create/update handlers
(routes/party.py lines 62-77 and 110-125). -/
def partyItemOf (party_id : Int) (p : PartyPayload) : Item :=
  [("PartyId", .pint party_id),
   ("PartyName", .pstr p.partyName),
   ("AliasOrCompanyName", .pstr p.aliasOrCompanyName),
   ("Contact_Person1", .pstr p.contact_Person1),
   ("Contact_Person2", optStr p.contact_Person2),
   ("Mobile1", .pstr p.mobile1),
   ("Mobile2", optStr p.mobile2),
   ("Email", optStr p.email),
   ("Address", optStr p.address),
   ("City", optStr p.city),
   ("State", optStr p.state),
   ("Pincode", optStr p.pincode),
   ("AgentId", optInt p.agentId),
   ("OrderId", optStr p.orderId)]

/-- A validated `CreateProduct` / `UpdateProduct` payload
(schemas/products.py; the two models declare identical fields).  Numeric
fields carry the exact decimal value of the API float. -/
structure ProductPayload where
  productType : String
  productSize : Dec
  bagMaterial : String
  quantity : Dec
  sheetGSM : Dec
  sheetColor : String
  borderGSM : Dec
  borderColor : String
  handleType : String
  handleColor : String
  handleGSM : Dec
  printingType : String
  printColor : String
  color : String
  design : Bool
  plateBlockNumber : Dec
  plateAvailable : Bool
  rate : Dec
deriving DecidableEq, Repr

/-- The storage item built by the product create/update handlers
(routes/products.py lines 73-93 and 129-149), with `ddb_decimal` encoding
on every numeric field. -/
def productItemOf (product_id : Int) (p : ProductPayload) : Item :=
  [("ProductId", .pint product_id),
   ("ProductType", .pstr p.productType),
   ("ProductSize", ddb_decimal p.productSize),
   ("BagMaterial", .pstr p.bagMaterial),
   ("Quantity", ddb_decimal p.quantity),
   ("SheetGSM", ddb_decimal p.sheetGSM),
   ("SheetColor", .pstr p.sheetColor),
   ("BorderGSM", ddb_decimal p.borderGSM),
   ("BorderColor", .pstr p.borderColor),
   ("HandleType", .pstr p.handleType),
   ("HandleColor", .pstr p.handleColor),
   ("HandleGSM", ddb_decimal p.handleGSM),
   ("PrintingType", .pstr p.printingType),
   ("PrintColor", .pstr p.printColor),
   ("Color", .pstr p.color),
   ("Design", .pbool p.design),
   ("PlateBlockNumber", ddb_decimal p.plateBlockNumber),
   ("PlateAvailable", .pbool p.plateAvailable),
   ("Rate", ddb_decimal p.rate)]

/-! ## routes/agents.py -/

/-- `GET /api/agents/{agent_id}` (routes/agents.py lines 58-75). -/
def get_agent (db : Table) (agent_id : Int) : RouteOut :=
  if agent_id ≤ 0 then
    ⟨.err 400 "Agent ID must be a positive integer", db, []⟩
  else
    match getItem db agent_id with
    | none => ⟨.err 404 "Agent not found", db, [.get agent_id]⟩
    | some item =>
      match normalize_agent_item item with
      | some body => ⟨.okItem body, db, [.get agent_id]⟩
      | none => ⟨.err 500 "Failed to fetch agent", db, [.get agent_id]⟩

/-- `POST /api/agents` (routes/agents.py lines 78-108): allocate the next
id by scan, build the item, unconditional put. -/
def create_agent (db : Table) (p : AgentPayload) : RouteOut :=
  match get_next_agent_id (scanItems db) with
  | .error _ => ⟨.err 500 "Failed to create agent", db, [.scan]⟩
  | .ok agent_id =>
    let item := agentItemOf agent_id p
    match normalize_agent_item item with
    | some body =>
      ⟨.okItem body, putItem db agent_id item, [.scan, .put agent_id item]⟩
    | none =>
      ⟨.err 500 "Failed to create agent", putItem db agent_id item,
        [.scan, .put agent_id item]⟩

/-- `PUT /api/agents/{agent_id}` (routes/agents.py lines 111-150):
positive-id check, then existence lookup, then full replace via put. -/
def update_agent (db : Table) (agent_id : Int) (p : AgentPayload) : RouteOut :=
  if agent_id ≤ 0 then
    ⟨.err 400 "Agent ID must be a positive integer", db, []⟩
  else
    match getItem db agent_id with
    | none => ⟨.err 404 "Agent not found", db, [.get agent_id]⟩
    | some _ =>
      let item := agentItemOf agent_id p
      match normalize_agent_item item with
      | some body =>
        ⟨.okItem body, putItem db agent_id item,
          [.get agent_id, .put agent_id item]⟩
      | none =>
        ⟨.err 500 "Failed to update agent", putItem db agent_id item,
          [.get agent_id, .put agent_id item]⟩

/-- `DELETE /api/agents/{agent_id}` (routes/agents.py lines 153-177). -/
def delete_agent (db : Table) (agent_id : Int) : RouteOut :=
  if agent_id ≤ 0 then
    ⟨.err 400 "Agent ID must be a positive integer", db, []⟩
  else
    match getItem db agent_id with
    | none => ⟨.err 404 "Agent not found", db, [.get agent_id]⟩
    | some _ =>
      ⟨.okItem [("deleted", .pbool true)], delItem db agent_id,
        [.get agent_id, .del agent_id]⟩

/-! ## routes/party.py -/

/-- `GET /api/party/{party_id}` (routes/party.py lines 37-53). -/
def get_party (db : Table) (party_id : Int) : RouteOut :=
  if party_id ≤ 0 then
    ⟨.err 400 "Party ID must be a positive integer", db, []⟩
  else
    match getItem db party_id with
    | none => ⟨.err 404 "Party not found", db, [.get party_id]⟩
    | some item =>
      match normalize_party_item item with
      | some body => ⟨.okItem body, db, [.get party_id]⟩
      | none => ⟨.err 500 "Failed to fetch party", db, [.get party_id]⟩

/-- `PUT /api/party/{party_id}` (routes/party.py lines 98-146). -/
def update_party (db : Table) (party_id : Int) (p : PartyPayload) : RouteOut :=
  if party_id ≤ 0 then
    ⟨.err 400 "Party ID must be a positive integer", db, []⟩
  else
    match getItem db party_id with
    | none => ⟨.err 404 "Party not found", db, [.get party_id]⟩
    | some _ =>
      let item := partyItemOf party_id p
      match normalize_party_item item with
      | some body =>
        ⟨.okItem body, putItem db party_id item,
          [.get party_id, .put party_id item]⟩
      | none =>
        ⟨.err 500 "Failed to update party", putItem db party_id item,
          [.get party_id, .put party_id item]⟩

/-- `DELETE /api/party/{party_id}` (routes/party.py lines 149-173). -/
def delete_party (db : Table) (party_id : Int) : RouteOut :=
  if party_id ≤ 0 then
    ⟨.err 400 "Party ID must be a positive integer", db, []⟩
  else
    match getItem db party_id with
    | none => ⟨.err 404 "Party not found", db, [.get party_id]⟩
    | some _ =>
      ⟨.okItem [("deleted", .pbool true)], delItem db party_id,
        [.get party_id, .del party_id]⟩

/-! ## routes/products.py -/

/-- `GET /api/products/{product_id}` (routes/products.py lines 41-61). -/
def get_product (db : Table) (product_id : Int) : RouteOut :=
  if product_id ≤ 0 then
    ⟨.err 400 "Product ID must be a positive integer", db, []⟩
  else
    match getItem db product_id with
    | none => ⟨.err 404 "Product not found", db, [.get product_id]⟩
    | some item =>
      match normalize_product_item item with
      | some body => ⟨.okItem body, db, [.get product_id]⟩
      | none => ⟨.err 500 "Failed to fetch product", db, [.get product_id]⟩

/-- `PUT /api/products/{product_id}` (routes/products.py lines 114-170). -/
def update_product (db : Table) (product_id : Int) (p : ProductPayload) : RouteOut :=
  if product_id ≤ 0 then
    ⟨.err 400 "Product ID must be a positive integer", db, []⟩
  else
    match getItem db product_id with
    | none => ⟨.err 404 "Product not found", db, [.get product_id]⟩
    | some _ =>
      let item := productItemOf product_id p
      match normalize_product_item item with
      | some body =>
        ⟨.okItem body, putItem db product_id item,
          [.get product_id, .put product_id item]⟩
      | none =>
        ⟨.err 500 "Failed to update product", putItem db product_id item,
          [.get product_id, .put product_id item]⟩

/-- `DELETE /api/products/{product_id}` (routes/products.py lines 173-200). -/
def delete_product (db : Table) (product_id : Int) : RouteOut :=
  if product_id ≤ 0 then
    ⟨.err 400 "Product ID must be a positive integer", db, []⟩
  else
    match getItem db product_id with
    | none => ⟨.err 404 "Product not found", db, [.get product_id]⟩
    | some _ =>
      ⟨.okItem [("deleted", .pbool true), ("productId", .pint product_id)],
        delItem db product_id, [.get product_id, .del product_id]⟩

/-- A `SearchProduct` filter payload (schemas/products.py lines 555-576). -/
structure SearchProduct where
  productType : Option String
  bagMaterial : Option String
  sheetColor : Option String
  borderColor : Option String
  handleColor : Option String
  printingType : Option String
  printColor : Option String
  color : Option String
  design : Option Bool
  plateAvailable : Option Bool
  minPrice : Option ℚ
  maxPrice : Option ℚ
deriving DecidableEq, Repr

/-- One `if filters.f and item.get(K) != filters.f: continue` test of
`search_products`: the item survives unless the filter is truthy
(non-null and non-empty) and Python `!=` holds on the attribute. -/
def strFilterOk (fil : Option String) (it : Item) (attr : String) : Bool :=
  match fil with
  | none => true
  | some s => if s = "" then true else pyEq (itemGetD it attr) (.pstr s)

/-- One `if filters.f is not None and item.get(K) != filters.f: continue`
test of `search_products` for the boolean filters. -/
def boolFilterOk (fil : Option Bool) (it : Item) (attr : String) : Bool :=
  match fil with
  | none => true
  | some b => pyEq (itemGetD it attr) (.pbool b)

/-- `rate = item.get("Rate")` with the `Decimal` → float conversion: the
numeric value of the attribute, or `none` for Python `None` (or a
non-numeric value, which no stored product holds). -/
def rateOf (it : Item) : Option ℚ := (itemGetD it "Rate").toRatNum

/-- The full `continue` chain of `search_products` for one item
(routes/products.py lines 224-259). -/
def productMatches (f : SearchProduct) (it : Item) : Bool :=
  strFilterOk f.productType it "ProductType" &&
  strFilterOk f.bagMaterial it "BagMaterial" &&
  strFilterOk f.sheetColor it "SheetColor" &&
  strFilterOk f.borderColor it "BorderColor" &&
  strFilterOk f.handleColor it "HandleColor" &&
  strFilterOk f.printingType it "PrintingType" &&
  strFilterOk f.printColor it "PrintColor" &&
  strFilterOk f.color it "Color" &&
  boolFilterOk f.design it "Design" &&
  boolFilterOk f.plateAvailable it "PlateAvailable" &&
  (match f.minPrice with
   | none => true
   | some m => match rateOf it with
               | none => false
               | some r => decide (m ≤ r)) &&
  (match f.maxPrice with
   | none => true
   | some m => match rateOf it with
               | none => false
               | some r => decide (r ≤ m))

/-- `[normalize_product_item(x) for x in l]`: all items normalized, or
`none` as soon as one normalization raises. -/
def normalizeAll : List Item → Option (List Item)
  | [] => some []
  | it :: rest =>
    match normalize_product_item it, normalizeAll rest with
    | some b, some bs => some (b :: bs)
    | _, _ => none

/-- `POST /api/products/search` (routes/products.py lines 203-274): scan,
filter in memory, normalize every surviving item. -/
def search_products (db : Table) (f : SearchProduct) : RouteOut :=
  let filtered := (scanItems db).filter (fun it => productMatches f it)
  match normalizeAll filtered with
  | some bodies => ⟨.okList bodies, db, [.scan]⟩
  | none => ⟨.err 500 "Failed to search products", db, [.scan]⟩

/-! ## Claim C10 : non-positive ids rejected before any storage call -/

/-- Claim C10: for every non-positive id, the GET, PUT and DELETE handlers
of the three integer-keyed entities (agents, parties, products) return 400
with a "... must be a positive integer" detail, issue no storage operation,
and leave the table unchanged — a distinct outcome from the 404 returned
for positive absent keys. -/
theorem nonpositive_id_rejected_before_storage
    (db : Table) (k : Int) (hk : k ≤ 0)
    (pa : AgentPayload) (pp : PartyPayload) (pq : ProductPayload) :
    get_agent db k = ⟨.err 400 "Agent ID must be a positive integer", db, []⟩ ∧
    update_agent db k pa = ⟨.err 400 "Agent ID must be a positive integer", db, []⟩ ∧
    delete_agent db k = ⟨.err 400 "Agent ID must be a positive integer", db, []⟩ ∧
    get_party db k = ⟨.err 400 "Party ID must be a positive integer", db, []⟩ ∧
    update_party db k pp = ⟨.err 400 "Party ID must be a positive integer", db, []⟩ ∧
    delete_party db k = ⟨.err 400 "Party ID must be a positive integer", db, []⟩ ∧
    get_product db k = ⟨.err 400 "Product ID must be a positive integer", db, []⟩ ∧
    update_product db k pq = ⟨.err 400 "Product ID must be a positive integer", db, []⟩ ∧
    delete_product db k = ⟨.err 400 "Product ID must be a positive integer", db, []⟩ := by
  unfold get_agent update_agent delete_agent get_party update_party
    delete_party get_product update_product delete_product
  simp [hk]

/-- Witness for C10 at id 0 on the empty table: the agent GET returns 400
and performs no storage operation. -/
theorem nonpositive_id_rejected_before_storage_witness :
    (0 : Int) ≤ 0 ∧
    get_agent [] 0 = ⟨.err 400 "Agent ID must be a positive integer", [], []⟩ :=
  ⟨by decide,
    (nonpositive_id_rejected_before_storage [] 0 (by decide)
      ⟨"Ann", "9876543210", "123456789012", "12 Main St"⟩
      ⟨"Acme", "AC", "Bea", none, "9876543210", none, none, none, none,
        none, none, none, none⟩
      ⟨"Tote Bag", ⟨10, 0⟩, "Jute", ⟨5, 0⟩, ⟨200, 0⟩, "Cream", ⟨50, 0⟩,
        "Black", "Web Handle", "Black", ⟨100, 0⟩, "Embroidery", "Red",
        "Red", false, ⟨0, 0⟩, false, ⟨100, 0⟩⟩).1⟩

/-! ## Claim C5 : update semantics -/

theorem find?_map_replace (l : Table) (k : Int) (it : Item)
    (h : (l.find? (fun p => p.1 == k)).isSome = true) :
    ((l.map (fun p => if p.1 == k then (k, it) else p)).find?
      (fun p => p.1 == k)) = some (k, it) := by
  induction l with
  | nil => simp at h
  | cons hd tl ih =>
    by_cases hk : hd.1 = k
    · simp only [List.map_cons, if_pos (show (hd.1 == k) = true by simp [hk])]
      rw [List.find?_cons_of_pos _ (by simp)]
    · simp only [List.map_cons, if_neg (show ¬ (hd.1 == k) = true by simp [hk])]
      rw [List.find?_cons_of_neg _ (by simp [hk])]
      apply ih
      rw [List.find?_cons_of_neg _ (by simp [hk])] at h
      exact h

theorem getItem_putItem_self (db : Table) (k : Int) (it : Item) :
    getItem (putItem db k it) k = some it := by
  unfold getItem putItem
  by_cases h : (db.find? (fun p => p.1 == k)).isSome = true
  · rw [if_pos h, find?_map_replace db k it h]
    rfl
  · rw [if_neg h, List.find?_append]
    rw [Option.not_isSome_iff_eq_none.mp h]
    simp

/-- Claim C5 counterexample: the key 0 is absent from the empty agents
collection, yet `PUT /api/agents/0` returns 400 (without any lookup), not
the 404 NotFound outcome the claim requires for every absent key. -/
theorem update_nonpositive_key_counterexample :
    getItem ([] : Table) 0 = none ∧
    update_agent [] 0 ⟨"Ann", "9876543210", "123456789012", "12 Main St"⟩ =
      ⟨.err 400 "Agent ID must be a positive integer", [], []⟩ ∧
    (update_agent [] 0 ⟨"Ann", "9876543210", "123456789012", "12 Main St"⟩).resp ≠
      .err 404 "Agent not found" := by
  refine ⟨rfl, rfl, by decide⟩

/-- Claim C5 (amended): for every positive key, the agent and product
update handlers perform the existence lookup first; when the key is absent
they return 404, issue no put, and leave the table unchanged; when the key
exists, the stored record is fully replaced by the item built from the
payload alone (no merge with the previous item).  Non-positive keys get
400 before any storage operation. -/
theorem update_behavior_amended (db : Table) (k : Int) (hk : 0 < k)
    (pa : AgentPayload) (pq : ProductPayload) :
    (getItem db k = none →
      update_agent db k pa = ⟨.err 404 "Agent not found", db, [.get k]⟩ ∧
      update_product db k pq = ⟨.err 404 "Product not found", db, [.get k]⟩) ∧
    ((getItem db k).isSome = true →
      (∃ body, update_agent db k pa =
        ⟨.okItem body, putItem db k (agentItemOf k pa),
          [.get k, .put k (agentItemOf k pa)]⟩) ∧
      getItem (update_agent db k pa).db k = some (agentItemOf k pa) ∧
      (∃ body, update_product db k pq =
        ⟨.okItem body, putItem db k (productItemOf k pq),
          [.get k, .put k (productItemOf k pq)]⟩) ∧
      getItem (update_product db k pq).db k = some (productItemOf k pq)) := by
  have hk' : ¬ k ≤ 0 := by omega
  constructor
  · intro habs
    constructor
    · simp [update_agent, hk', habs]
    · simp [update_product, hk', habs]
  · intro hsome
    obtain ⟨old, hold⟩ := Option.isSome_iff_exists.mp hsome
    have hna : normalize_agent_item (agentItemOf k pa) =
        some [("agentId", .pint k), ("name", .pstr pa.name),
              ("mobile", .pstr pa.mobile),
              ("aadhar_Details", .pstr pa.aadhar_Details),
              ("address", .pstr pa.address)] := rfl
    have hnq : normalize_product_item (productItemOf k pq) =
        some [("productId", .pint k), ("productType", .pstr pq.productType),
              ("productSize", .pfloat pq.productSize.toRat),
              ("bagMaterial", .pstr pq.bagMaterial),
              ("quantity", .pfloat pq.quantity.toRat),
              ("sheetGSM", .pfloat pq.sheetGSM.toRat),
              ("sheetColor", .pstr pq.sheetColor),
              ("borderGSM", .pfloat pq.borderGSM.toRat),
              ("borderColor", .pstr pq.borderColor),
              ("handleType", .pstr pq.handleType),
              ("handleColor", .pstr pq.handleColor),
              ("handleGSM", .pfloat pq.handleGSM.toRat),
              ("printingType", .pstr pq.printingType),
              ("printColor", .pstr pq.printColor),
              ("color", .pstr pq.color),
              ("design", .pbool pq.design),
              ("plateBlockNumber", .pfloat pq.plateBlockNumber.toRat),
              ("plateAvailable", .pbool pq.plateAvailable),
              ("rate", .pfloat pq.rate.toRat)] := rfl
    have hdba : (update_agent db k pa).db = putItem db k (agentItemOf k pa) := by
      simp [update_agent, hk', hold, hna]
    have hdbq : (update_product db k pq).db = putItem db k (productItemOf k pq) := by
      simp [update_product, hk', hold, hnq]
    refine ⟨⟨[("agentId", .pint k), ("name", .pstr pa.name),
              ("mobile", .pstr pa.mobile),
              ("aadhar_Details", .pstr pa.aadhar_Details),
              ("address", .pstr pa.address)], ?_⟩, ?_,
            ⟨[("productId", .pint k), ("productType", .pstr pq.productType),
              ("productSize", .pfloat pq.productSize.toRat),
              ("bagMaterial", .pstr pq.bagMaterial),
              ("quantity", .pfloat pq.quantity.toRat),
              ("sheetGSM", .pfloat pq.sheetGSM.toRat),
              ("sheetColor", .pstr pq.sheetColor),
              ("borderGSM", .pfloat pq.borderGSM.toRat),
              ("borderColor", .pstr pq.borderColor),
              ("handleType", .pstr pq.handleType),
              ("handleColor", .pstr pq.handleColor),
              ("handleGSM", .pfloat pq.handleGSM.toRat),
              ("printingType", .pstr pq.printingType),
              ("printColor", .pstr pq.printColor),
              ("color", .pstr pq.color),
              ("design", .pbool pq.design),
              ("plateBlockNumber", .pfloat pq.plateBlockNumber.toRat),
              ("plateAvailable", .pbool pq.plateAvailable),
              ("rate", .pfloat pq.rate.toRat)], ?_⟩, ?_⟩
    · simp [update_agent, hk', hold, hna]
    · rw [hdba, getItem_putItem_self]
    · simp [update_product, hk', hold, hnq]
    · rw [hdbq, getItem_putItem_self]

/-- Witness for the amended C5: with a stored agent under key 1, the update
replaces the whole record by the payload-built item; with key 2 absent, the
update returns 404 and changes nothing. -/
theorem update_behavior_amended_witness :
    (0 : Int) < 1 ∧
    getItem ([(1, [("AgentId", PyVal.pint 1), ("Name", PyVal.pstr "Old")])]) 1
      ≠ none ∧
    getItem (update_agent [(1, [("AgentId", PyVal.pint 1), ("Name", PyVal.pstr "Old")])]
        1 ⟨"Ann", "9876543210", "123456789012", "12 Main St"⟩).db 1 =
      some (agentItemOf 1 ⟨"Ann", "9876543210", "123456789012", "12 Main St"⟩) ∧
    update_agent ([] : Table) 1 ⟨"Ann", "9876543210", "123456789012", "12 Main St"⟩ =
      ⟨.err 404 "Agent not found", [], [.get 1]⟩ := by
  refine ⟨by decide, by decide, ?_, ?_⟩
  · exact ((update_behavior_amended
      [(1, [("AgentId", PyVal.pint 1), ("Name", PyVal.pstr "Old")])] 1 (by decide)
      ⟨"Ann", "9876543210", "123456789012", "12 Main St"⟩
      ⟨"Tote Bag", ⟨10, 0⟩, "Jute", ⟨5, 0⟩, ⟨200, 0⟩, "Cream", ⟨50, 0⟩,
        "Black", "Web Handle", "Black", ⟨100, 0⟩, "Embroidery", "Red",
        "Red", false, ⟨0, 0⟩, false, ⟨100, 0⟩⟩).2 (by decide)).2.1
  · exact ((update_behavior_amended ([] : Table) 1 (by decide)
      ⟨"Ann", "9876543210", "123456789012", "12 Main St"⟩
      ⟨"Tote Bag", ⟨10, 0⟩, "Jute", ⟨5, 0⟩, ⟨200, 0⟩, "Cream", ⟨50, 0⟩,
        "Black", "Web Handle", "Black", ⟨100, 0⟩, "Embroidery", "Red",
        "Red", false, ⟨0, 0⟩, false, ⟨100, 0⟩⟩).1 (by decide)).1

/-! ## Claim C7 : sequential id assignment on serialized creates -/

/-- The key of the put operation a handler issued, if any. -/
def putKeyOf (ops : List DbOp) : Option Int :=
  ops.findSome? (fun op => match op with | .put k _ => some k | _ => none)

/-- Serialized create calls against the agents collection: the final table
and each call's assigned key (the key of the put it issued), in call
order. -/
def runCreates : Table → List AgentPayload → Table × List (Option Int)
  | db, [] => (db, [])
  | db, p :: ps =>
    let r := create_agent db p
    let rest := runCreates r.db ps
    (rest.1, putKeyOf r.ops :: rest.2)

theorem listMax_spec (l : List Int) (hl : l ≠ []) :
    listMax l ∈ l ∧ ∀ x ∈ l, x ≤ listMax l := by
  cases l with
  | nil => exact absurd rfl hl
  | cons x xs => exact ⟨listMax_mem xs x, listMax_isUB xs x⟩

theorem listMax_range_map (n : Nat) (hn : n ≠ 0) :
    listMax ((List.range' 1 n).map (Nat.cast : Nat → Int)) = (n : Int) := by
  have hne : ((List.range' 1 n).map (Nat.cast : Nat → Int)) ≠ [] := by
    simp [List.range'_eq_nil, hn]
  obtain ⟨hmem, hub⟩ := listMax_spec _ hne
  have h1 : listMax ((List.range' 1 n).map (Nat.cast : Nat → Int)) ≤ (n : Int) := by
    obtain ⟨k, hk, hkeq⟩ := List.mem_map.mp hmem
    have hklt := (List.mem_range'_1.mp hk).2
    rw [← hkeq]
    omega
  have h2 : (n : Int) ≤ listMax ((List.range' 1 n).map (Nat.cast : Nat → Int)) := by
    apply hub
    apply List.mem_map.mpr
    exact ⟨n, List.mem_range'_1.mpr (by omega), rfl⟩
  omega

theorem collectIds_canonical (db : Table)
    (hitems : ∀ kit ∈ db, itemGet kit.2 "AgentId" = some (.pint kit.1))
    (hpos : ∀ kit ∈ db, 0 < kit.1) :
    collectIds "AgentId" (scanItems db) = some (db.map Prod.fst) := by
  induction db with
  | nil => rfl
  | cons kit rest ih =>
    have hk := hitems kit (List.mem_cons_self _ _)
    have hp := hpos kit (List.mem_cons_self _ _)
    have ih' := ih (fun x hx => hitems x (List.mem_cons_of_mem _ hx))
      (fun x hx => hpos x (List.mem_cons_of_mem _ hx))
    show collectIds "AgentId" (kit.2 :: scanItems rest) = _
    rw [collectIds, ih', hk]
    have ht : (PyVal.pint kit.1).truthy = true := by
      simp [PyVal.truthy]
      omega
    simp [ht, PyVal.toIntCoerce]

theorem next_id_canonical (db : Table) (n : Nat)
    (hkeys : db.map Prod.fst = (List.range' 1 n).map (Nat.cast : Nat → Int))
    (hitems : ∀ kit ∈ db, itemGet kit.2 "AgentId" = some (.pint kit.1)) :
    get_next_agent_id (scanItems db) = .ok ((n : Int) + 1) := by
  have hpos : ∀ kit ∈ db, 0 < kit.1 := by
    intro kit hkit
    have hmm : kit.1 ∈ db.map Prod.fst := List.mem_map.mpr ⟨kit, hkit, rfl⟩
    rw [hkeys] at hmm
    obtain ⟨k, hk, hkeq⟩ := List.mem_map.mp hmm
    have hk1 := (List.mem_range'_1.mp hk).1
    rw [← hkeq]
    omega
  have hcoll := collectIds_canonical db hitems hpos
  show nextIdScan "AgentId" (scanItems db) = _
  cases hdb : db with
  | nil =>
    subst hdb
    simp only [List.map_nil] at hkeys
    have hn0 : n = 0 := by
      by_contra hn
      rw [eq_comm, List.map_eq_nil_iff, List.range'_eq_nil] at hkeys
      exact hn hkeys
    subst hn0
    rfl
  | cons kit rest =>
    subst hdb
    have hne : n ≠ 0 := by
      intro hn
      subst hn
      simp [List.range'] at hkeys
    rw [nextIdScan]
    rw [if_neg (by simp [scanItems])]
    rw [hcoll, hkeys]
    have : ((List.range' 1 n).map (Nat.cast : Nat → Int)) ≠ [] := by
      simp [List.range'_eq_nil, hne]
    simp only [List.isEmpty_iff]
    rw [if_neg this, listMax_range_map n hne]

theorem create_agent_canonical (db : Table) (n : Nat) (p : AgentPayload)
    (hkeys : db.map Prod.fst = (List.range' 1 n).map (Nat.cast : Nat → Int))
    (hitems : ∀ kit ∈ db, itemGet kit.2 "AgentId" = some (.pint kit.1)) :
    create_agent db p =
      ⟨.okItem [("agentId", .pint ((n : Int) + 1)), ("name", .pstr p.name),
                ("mobile", .pstr p.mobile),
                ("aadhar_Details", .pstr p.aadhar_Details),
                ("address", .pstr p.address)],
        db ++ [(((n : Int) + 1), agentItemOf ((n : Int) + 1) p)],
        [.scan, .put ((n : Int) + 1) (agentItemOf ((n : Int) + 1) p)]⟩ := by
  have hnext := next_id_canonical db n hkeys hitems
  have hfind : db.find? (fun q => q.1 == (n : Int) + 1) = none := by
    rw [List.find?_eq_none]
    intro x hx
    have hmm : x.1 ∈ db.map Prod.fst := List.mem_map.mpr ⟨x, hx, rfl⟩
    rw [hkeys] at hmm
    obtain ⟨k, hk, hkeq⟩ := List.mem_map.mp hmm
    have hklt := (List.mem_range'_1.mp hk).2
    simp only [beq_iff_eq]
    rw [← hkeq]
    omega
  have hput : putItem db ((n : Int) + 1) (agentItemOf ((n : Int) + 1) p) =
      db ++ [(((n : Int) + 1), agentItemOf ((n : Int) + 1) p)] := by
    unfold putItem
    rw [hfind]
    rfl
  unfold create_agent
  rw [show get_next_agent_id (scanItems db) = .ok ((n : Int) + 1) from hnext]
  simp only [hput]
  rfl

theorem runCreates_canonical (ps : List AgentPayload) :
    ∀ (db : Table) (n : Nat),
      db.map Prod.fst = (List.range' 1 n).map (Nat.cast : Nat → Int) →
      (∀ kit ∈ db, itemGet kit.2 "AgentId" = some (.pint kit.1)) →
      (runCreates db ps).2 =
        (List.range' (n + 1) ps.length).map (fun m => some ((Nat.cast m : Int))) := by
  induction ps with
  | nil => intro db n _ _; rfl
  | cons p ps ih =>
    intro db n hkeys hitems
    have hc := create_agent_canonical db n p hkeys hitems
    show ((runCreates (create_agent db p).db ps).1,
      putKeyOf (create_agent db p).ops :: (runCreates (create_agent db p).db ps).2).2 = _
    rw [hc]
    have hkeys' : (db ++ [(((n : Int) + 1), agentItemOf ((n : Int) + 1) p)]).map Prod.fst =
        (List.range' 1 (n + 1)).map (Nat.cast : Nat → Int) := by
      rw [List.map_append, hkeys, List.range'_concat, List.map_append]
      simp
      omega
    have hitems' : ∀ kit ∈ db ++ [(((n : Int) + 1), agentItemOf ((n : Int) + 1) p)],
        itemGet kit.2 "AgentId" = some (.pint kit.1) := by
      intro kit hkit
      rcases List.mem_append.mp hkit with h | h
      · exact hitems kit h
      · simp only [List.mem_singleton] at h
        subst h
        rfl
    have := ih (db ++ [(((n : Int) + 1), agentItemOf ((n : Int) + 1) p)]) (n + 1)
      hkeys' hitems'
    simp only [this]
    show some ((n : Int) + 1) :: _ = _
    rw [show List.range' (n + 1) (p :: ps).length =
        (n + 1) :: List.range' (n + 1 + 1) ps.length from rfl]
    simp only [List.map_cons]
    congr 2

/-- Claim C7: for any sequence of serialized successful create calls
against an initially empty agents collection, the assigned keys are
1, 2, 3, … in call order: each create puts a record under the allocator's
value, so the next allocation returns the previous one plus 1. -/
theorem creates_assign_sequential_ids (ps : List AgentPayload) :
    (runCreates [] ps).2 =
      (List.range' 1 ps.length).map (fun m => some ((Nat.cast m : Int))) :=
  runCreates_canonical ps [] 0 (by simp) (by simp)

/-! ## Claim C8 : normalizers tolerate missing optional attributes -/

/-- Optional Party storage attributes and the API field each maps to. -/
def partyOptionalFields : List (String × String) :=
  [("PartyName", "partyName"), ("AliasOrCompanyName", "aliasOrCompanyName"),
   ("Address", "address"), ("City", "city"), ("State", "state"),
   ("Pincode", "pincode"), ("AgentId", "agentId"),
   ("Contact_Person1", "contact_Person1"),
   ("Contact_Person2", "contact_Person2"),
   ("Email", "email"), ("Mobile1", "mobile1"), ("Mobile2", "mobile2"),
   ("OrderId", "orderId")]

/-- Optional Product storage attributes (those without a declared default)
and the API field each maps to. -/
def productOptionalFields : List (String × String) :=
  [("ProductType", "productType"), ("ProductSize", "productSize"),
   ("BagMaterial", "bagMaterial"), ("Quantity", "quantity"),
   ("SheetGSM", "sheetGSM"), ("SheetColor", "sheetColor"),
   ("BorderGSM", "borderGSM"), ("BorderColor", "borderColor"),
   ("HandleType", "handleType"), ("HandleColor", "handleColor"),
   ("HandleGSM", "handleGSM"), ("PrintingType", "printingType"),
   ("PrintColor", "printColor"), ("Color", "color"),
   ("PlateBlockNumber", "plateBlockNumber"), ("Rate", "rate")]

/-- Claim C8: whenever the stored item contains its key attribute, the
Party and Product normalizers never raise (they return a response item),
and every optional storage attribute that is entirely absent maps to
`None` in the response — except the two boolean Product attributes, whose
declared default `False` is used. -/
theorem normalize_handles_missing_optionals (itP itQ : Item)
    (hP : (itemGet itP "PartyId").isSome = true)
    (hQ : (itemGet itQ "ProductId").isSome = true) :
    (∃ outP, normalize_party_item itP = some outP ∧
      ∀ kv ∈ partyOptionalFields, itemGet itP kv.1 = none →
        itemGet outP kv.2 = some .pnone) ∧
    (∃ outQ, normalize_product_item itQ = some outQ ∧
      (∀ kv ∈ productOptionalFields, itemGet itQ kv.1 = none →
        itemGet outQ kv.2 = some .pnone) ∧
      (itemGet itQ "Design" = none →
        itemGet outQ "design" = some (.pbool false)) ∧
      (itemGet itQ "PlateAvailable" = none →
        itemGet outQ "plateAvailable" = some (.pbool false))) := by
  constructor
  · obtain ⟨pid, hpid⟩ := Option.isSome_iff_exists.mp hP
    refine ⟨[("partyId", match pid with | .pdec d => .pint d.toInt | v => v),
             ("partyName", itemGetD itP "PartyName"),
             ("aliasOrCompanyName", itemGetD itP "AliasOrCompanyName"),
             ("address", itemGetD itP "Address"),
             ("city", itemGetD itP "City"),
             ("state", itemGetD itP "State"),
             ("pincode", partyConvert (itemGetD itP "Pincode")),
             ("agentId", partyAgentIdField itP),
             ("contact_Person1", itemGetD itP "Contact_Person1"),
             ("contact_Person2", itemGetD itP "Contact_Person2"),
             ("email", itemGetD itP "Email"),
             ("mobile1", partyConvert (itemGetD itP "Mobile1")),
             ("mobile2", partyConvert (itemGetD itP "Mobile2")),
             ("orderId", partyConvert (itemGetD itP "OrderId"))], ?_, ?_⟩
    · simp only [normalize_party_item, hpid]
      cases pid <;> rfl
    · intro kv hkv
      fin_cases hkv <;>
        (intro habs;
         simp only [itemGet] at habs;
         simp [itemGet, itemGetD, habs, partyConvert, partyAgentIdField,
           List.find?])
  · obtain ⟨pid, hpid⟩ := Option.isSome_iff_exists.mp hQ
    refine ⟨[("productId", match pid with | .pdec d => .pint d.toInt | v => v),
             ("productType", itemGetD itQ "ProductType"),
             ("productSize", convert_decimal (itemGetD itQ "ProductSize")),
             ("bagMaterial", itemGetD itQ "BagMaterial"),
             ("quantity", convert_decimal (itemGetD itQ "Quantity")),
             ("sheetGSM", convert_decimal (itemGetD itQ "SheetGSM")),
             ("sheetColor", itemGetD itQ "SheetColor"),
             ("borderGSM", convert_decimal (itemGetD itQ "BorderGSM")),
             ("borderColor", itemGetD itQ "BorderColor"),
             ("handleType", itemGetD itQ "HandleType"),
             ("handleColor", itemGetD itQ "HandleColor"),
             ("handleGSM", convert_decimal (itemGetD itQ "HandleGSM")),
             ("printingType", itemGetD itQ "PrintingType"),
             ("printColor", itemGetD itQ "PrintColor"),
             ("color", itemGetD itQ "Color"),
             ("design", (itemGet itQ "Design").getD (.pbool false)),
             ("plateBlockNumber", convert_decimal (itemGetD itQ "PlateBlockNumber")),
             ("plateAvailable", (itemGet itQ "PlateAvailable").getD (.pbool false)),
             ("rate", convert_decimal (itemGetD itQ "Rate"))], ?_, ?_, ?_, ?_⟩
    · simp only [normalize_product_item, hpid]
      cases pid <;> rfl
    · intro kv hkv
      fin_cases hkv <;>
        (intro habs;
         simp only [itemGet] at habs;
         simp [itemGet, itemGetD, habs, convert_decimal, List.find?])
    · intro habs
      simp only [itemGet] at habs
      simp [itemGet, itemGetD, habs, List.find?]
    · intro habs
      simp only [itemGet] at habs
      simp [itemGet, itemGetD, habs, List.find?]

/-- Witness for C8: minimal items holding only the key attribute are
normalized without raising, and e.g. the missing `Mobile1` and `Rate`
attributes map to null/None fields. -/
theorem normalize_handles_missing_optionals_witness :
    (Option.isSome (itemGet [("PartyId", PyVal.pint 1)] "PartyId") = true) ∧
    (∃ outP, normalize_party_item [("PartyId", PyVal.pint 1)] = some outP ∧
      ∀ kv ∈ partyOptionalFields,
        itemGet [("PartyId", PyVal.pint 1)] kv.1 = none →
          itemGet outP kv.2 = some .pnone) :=
  ⟨by decide,
    (normalize_handles_missing_optionals [("PartyId", PyVal.pint 1)]
      [("ProductId", PyVal.pint 2)] (by decide) (by decide)).1⟩

/-! ## Claim C6 : product search filtering -/

/-- The value is a Python `bool`. -/
def PyVal.isBool : PyVal → Bool
  | .pbool _ => true
  | _ => false

/-- The shape every product item stored through the create/update handlers
has: the two boolean attributes hold `bool`s when they hold numeric values
at all, and the rate is numeric or `None`/absent. -/
def StoredProductShaped (it : Item) : Prop :=
  ((itemGetD it "Design").toRatNum.isSome = true →
    (itemGetD it "Design").isBool = true) ∧
  ((itemGetD it "PlateAvailable").toRatNum.isSome = true →
    (itemGetD it "PlateAvailable").isBool = true) ∧
  ((itemGetD it "Rate").toRatNum.isSome = true ∨ itemGetD it "Rate" = .pnone)

instance (it : Item) : Decidable (StoredProductShaped it) := by
  unfold StoredProductShaped; infer_instance

/-- The search contract exactly as the claim states it: every non-null
string or boolean filter must equal the item's field exactly, and the rate
must lie within the provided bounds. -/
def searchClaimMatches (f : SearchProduct) (it : Item) : Prop :=
  (∀ s ∈ f.productType, itemGetD it "ProductType" = .pstr s) ∧
  (∀ s ∈ f.bagMaterial, itemGetD it "BagMaterial" = .pstr s) ∧
  (∀ s ∈ f.sheetColor, itemGetD it "SheetColor" = .pstr s) ∧
  (∀ s ∈ f.borderColor, itemGetD it "BorderColor" = .pstr s) ∧
  (∀ s ∈ f.handleColor, itemGetD it "HandleColor" = .pstr s) ∧
  (∀ s ∈ f.printingType, itemGetD it "PrintingType" = .pstr s) ∧
  (∀ s ∈ f.printColor, itemGetD it "PrintColor" = .pstr s) ∧
  (∀ s ∈ f.color, itemGetD it "Color" = .pstr s) ∧
  (∀ b ∈ f.design, itemGetD it "Design" = .pbool b) ∧
  (∀ b ∈ f.plateAvailable, itemGetD it "PlateAvailable" = .pbool b) ∧
  (∀ m ∈ f.minPrice, ∃ r ∈ rateOf it, m ≤ r) ∧
  (∀ m ∈ f.maxPrice, ∃ r ∈ rateOf it, r ≤ m)

/-- The search contract as the code implements it: identical to the
claim's contract except that an empty-string filter imposes no
constraint. -/
def searchAmendedMatches (f : SearchProduct) (it : Item) : Prop :=
  (∀ s ∈ f.productType, s ≠ "" → itemGetD it "ProductType" = .pstr s) ∧
  (∀ s ∈ f.bagMaterial, s ≠ "" → itemGetD it "BagMaterial" = .pstr s) ∧
  (∀ s ∈ f.sheetColor, s ≠ "" → itemGetD it "SheetColor" = .pstr s) ∧
  (∀ s ∈ f.borderColor, s ≠ "" → itemGetD it "BorderColor" = .pstr s) ∧
  (∀ s ∈ f.handleColor, s ≠ "" → itemGetD it "HandleColor" = .pstr s) ∧
  (∀ s ∈ f.printingType, s ≠ "" → itemGetD it "PrintingType" = .pstr s) ∧
  (∀ s ∈ f.printColor, s ≠ "" → itemGetD it "PrintColor" = .pstr s) ∧
  (∀ s ∈ f.color, s ≠ "" → itemGetD it "Color" = .pstr s) ∧
  (∀ b ∈ f.design, itemGetD it "Design" = .pbool b) ∧
  (∀ b ∈ f.plateAvailable, itemGetD it "PlateAvailable" = .pbool b) ∧
  (∀ m ∈ f.minPrice, ∃ r ∈ rateOf it, m ≤ r) ∧
  (∀ m ∈ f.maxPrice, ∃ r ∈ rateOf it, r ≤ m)

theorem pyEq_pstr_iff (v : PyVal) (s : String) :
    pyEq v (.pstr s) = true ↔ v = .pstr s := by
  cases v <;> simp [pyEq, PyVal.toRatNum]

theorem pyEq_pbool_iff (v : PyVal) (b : Bool)
    (hv : v.toRatNum.isSome = true → v.isBool = true) :
    (pyEq v (.pbool b) = true ↔ v = .pbool b) := by
  cases v with
  | pbool c => cases b <;> cases c <;> simp [pyEq, PyVal.toRatNum]
  | pint n =>
    have h := hv (by simp [PyVal.toRatNum])
    simp [PyVal.isBool] at h
  | pfloat q =>
    have h := hv (by simp [PyVal.toRatNum])
    simp [PyVal.isBool] at h
  | pdec d =>
    have h := hv (by simp [PyVal.toRatNum])
    simp [PyVal.isBool] at h
  | pnone => simp [pyEq, PyVal.toRatNum]
  | pstr t => simp [pyEq, PyVal.toRatNum]

theorem strFilterOk_iff (fil : Option String) (it : Item) (attr : String) :
    strFilterOk fil it attr = true ↔
      ∀ s ∈ fil, s ≠ "" → itemGetD it attr = .pstr s := by
  cases fil with
  | none => simp [strFilterOk]
  | some s =>
    by_cases hs : s = ""
    · subst hs
      simp [strFilterOk]
    · simp [strFilterOk, hs, pyEq_pstr_iff]

theorem boolFilterOk_iff (fil : Option Bool) (it : Item) (attr : String)
    (hv : (itemGetD it attr).toRatNum.isSome = true →
      (itemGetD it attr).isBool = true) :
    boolFilterOk fil it attr = true ↔
      ∀ b ∈ fil, itemGetD it attr = .pbool b := by
  cases fil with
  | none => simp [boolFilterOk]
  | some b => simp [boolFilterOk, pyEq_pbool_iff _ _ hv]

theorem priceMinOk_iff (fil : Option ℚ) (it : Item) :
    (match fil with
     | none => true
     | some m => match rateOf it with
                 | none => false
                 | some r => decide (m ≤ r)) = true ↔
      ∀ m ∈ fil, ∃ r ∈ rateOf it, m ≤ r := by
  cases fil with
  | none => simp
  | some m => cases hr : rateOf it <;> simp [hr]

theorem priceMaxOk_iff (fil : Option ℚ) (it : Item) :
    (match fil with
     | none => true
     | some m => match rateOf it with
                 | none => false
                 | some r => decide (r ≤ m)) = true ↔
      ∀ m ∈ fil, ∃ r ∈ rateOf it, r ≤ m := by
  cases fil with
  | none => simp
  | some m => cases hr : rateOf it <;> simp [hr]

theorem normalizeAll_isSome :
    ∀ l : List Item, (∀ a ∈ l, (normalize_product_item a).isSome = true) →
      ∃ bs, normalizeAll l = some bs := by
  intro l
  induction l with
  | nil => exact fun _ => ⟨[], rfl⟩
  | cons a as ih =>
    intro h
    obtain ⟨b, hb⟩ := Option.isSome_iff_exists.mp (h a (List.mem_cons_self _ _))
    obtain ⟨bs, hbs⟩ := ih (fun x hx => h x (List.mem_cons_of_mem _ hx))
    exact ⟨b :: bs, by simp [normalizeAll, hb, hbs]⟩

/-- Claim C6 (amended): the product search scans the collection and keeps
exactly the stored items satisfying the conjunction of all provided
filters, where a non-null, non-empty string filter and a non-null boolean
filter require exact equality with the item's field, the rate must lie
within the provided price bounds, and null filters (and empty-string
filters, which Python truthiness treats as absent) impose no constraint;
the surviving items are returned normalized, and the table is only
scanned, never written. -/
theorem search_products_amended (db : Table) (f : SearchProduct)
    (hshape : ∀ it ∈ scanItems db, StoredProductShaped it)
    (hids : ∀ it ∈ scanItems db, (itemGet it "ProductId").isSome = true) :
    (∀ it ∈ scanItems db,
      (productMatches f it = true ↔ searchAmendedMatches f it)) ∧
    ∃ bodies, search_products db f = ⟨.okList bodies, db, [.scan]⟩ ∧
      normalizeAll ((scanItems db).filter (fun it => productMatches f it))
        = some bodies := by
  constructor
  · intro it hit
    obtain ⟨hd, hp, _⟩ := hshape it hit
    unfold productMatches searchAmendedMatches
    simp only [Bool.and_eq_true]
    rw [strFilterOk_iff, strFilterOk_iff, strFilterOk_iff, strFilterOk_iff,
      strFilterOk_iff, strFilterOk_iff, strFilterOk_iff, strFilterOk_iff,
      boolFilterOk_iff f.design it "Design" hd,
      boolFilterOk_iff f.plateAvailable it "PlateAvailable" hp,
      priceMinOk_iff, priceMaxOk_iff]
    tauto
  · have hns : ∀ it ∈ (scanItems db).filter (fun it => productMatches f it),
        (normalize_product_item it).isSome = true := by
      intro it hit
      obtain ⟨pid, hpid⟩ := Option.isSome_iff_exists.mp
        (hids it (List.mem_of_mem_filter hit))
      simp [normalize_product_item, hpid]
    obtain ⟨bodies, hbodies⟩ := normalizeAll_isSome _ hns
    refine ⟨bodies, ?_, hbodies⟩
    simp [search_products, hbodies]

/-- A sample valid product payload (all enumerated fields from the
allow-lists). -/
def sampleProduct : ProductPayload :=
  ⟨"Tote Bag", ⟨10, 0⟩, "Jute", ⟨5, 0⟩, ⟨200, 0⟩, "Cream", ⟨50, 0⟩,
    "Black", "Web Handle", "Black", ⟨100, 0⟩, "Embroidery", "Red",
    "Red", false, ⟨0, 0⟩, false, ⟨100, 0⟩⟩

/-- Claim C6 counterexample: with the single stored product (type
"Tote Bag") and a filter whose `productType` is the non-null empty string,
the search returns the product although the claim's contract (every
non-null string filter must equal the field exactly) excludes it: Python
truthiness treats the empty-string filter as absent. -/
theorem search_empty_string_filter_counterexample :
    (search_products [(1, productItemOf 1 sampleProduct)]
        ⟨some "", none, none, none, none, none, none, none, none, none,
          none, none⟩).resp ≠ .okList [] ∧
    ¬ searchClaimMatches
        ⟨some "", none, none, none, none, none, none, none, none, none,
          none, none⟩ (productItemOf 1 sampleProduct) := by
  constructor
  · decide
  · intro h
    have h1 := h.1 "" rfl
    exact absurd h1 (by decide)

/-- Witness for the amended C6: a stored Red product at rate 100 with
shape hypotheses discharged; a filter `{color: "Red", maxPrice: 200}`
matches it under both the code filter and the amended contract. -/
theorem search_products_amended_witness :
    (∀ it ∈ scanItems [(1, productItemOf 1 sampleProduct)],
      StoredProductShaped it) ∧
    (∀ it ∈ scanItems [(1, productItemOf 1 sampleProduct)],
      (itemGet it "ProductId").isSome = true) ∧
    (∀ it ∈ scanItems [(1, productItemOf 1 sampleProduct)],
      (productMatches
          ⟨none, none, none, none, none, none, none, some "Red", none,
            none, none, some 200⟩ it = true ↔
        searchAmendedMatches
          ⟨none, none, none, none, none, none, none, some "Red", none,
            none, none, some 200⟩ it)) :=
  ⟨by decide, by decide,
    (search_products_amended [(1, productItemOf 1 sampleProduct)]
      ⟨none, none, none, none, none, none, none, some "Red", none, none,
        none, some 200⟩ (by decide) (by decide)).1⟩
